import Mathlib

/-!
Shallow embedding of src/lgo_structural_verification.py.

Floating-point scalars are embedded as exact rationals: each decimal
literal of the source becomes the corresponding rational number, and
math.pi becomes the exact rational value of the IEEE-754 double that
Python binds to math.pi. Python arithmetic that can raise
ZeroDivisionError or ValueError is embedded as a function into
Except String; arithmetic that cannot raise stays a plain function.
-/

namespace LGO

/-- Exact rational value of the double Python binds to math.pi,
0x1.921fb54442d18p+1. -/
def math_pi : ℚ := 884279719003555 / 2 ^ 48

/-- G_CODATA: the empirical target value for the gravitational constant. -/
def G_CODATA : ℚ := 667430 / 10 ^ 16

/-- G_LGO_ORIGINAL: the initial G value derived from the LGO system. -/
def G_LGO_ORIGINAL : ℚ := 667435 / 10 ^ 16

/-- GAMMA_1: the first non-trivial Riemann zero constant of the source. -/
def GAMMA_1 : ℚ := 141347251417 / 10 ^ 10

/-- ALPHA_INV_LGO: inverse fine-structure constant of the source. -/
def ALPHA_INV_LGO : ℚ := 13697318634 / 10 ^ 8

/-- ALPHA_LGO: 1.0 / ALPHA_INV_LGO. -/
def ALPHA_LGO : ℚ := 1 / ALPHA_INV_LGO

/-- PLANCK_MASS_CODATA: CODATA target for the Planck mass. -/
def PLANCK_MASS_CODATA : ℚ := 2176434 / 10 ^ 14

/-- MUON_ELECTRON_STRUCTURAL_RATIO: structural muon/electron mass ratio. -/
def MUON_ELECTRON_STRUCTURAL_RATIO : ℚ := 20664222667 / 10 ^ 8

/-- Embedding of calculate_geometric_flaw_delta: raises ValueError when the
first argument is zero, otherwise returns (original - codata) / original. -/
def calculate_geometric_flaw_delta (G_lgo_original : ℚ) (G_codata : ℚ) :
    Except String ℚ :=
  if G_lgo_original = 0 then
    Except.error "Original LGO Gravitational Constant cannot be zero."
  else
    Except.ok ((G_lgo_original - G_codata) / G_lgo_original)

/-- Embedding of calculate_structurally_consistent_G: multiplies the module
constant G_LGO_ORIGINAL by (1 - delta). Total, no raising arithmetic. -/
def calculate_structurally_consistent_G (delta : ℚ) : ℚ :=
  G_LGO_ORIGINAL * (1 - delta)

/-- Embedding of math.fabs on the rational embedding of doubles. -/
def fabs (x : ℚ) : ℚ := if x < 0 then -x else x

/-- Embedding of check_structural_consistency: strict comparison of the
absolute difference against the tolerance. Total, no raising arithmetic. -/
def check_structural_consistency (G_lgo_prime : ℚ) (G_codata : ℚ)
    (tolerance : ℚ) : Bool :=
  decide (fabs (G_lgo_prime - G_codata) < tolerance)

/-- Embedding of derive_electron_mass: returns 0 when gamma_1 is zero,
raises ZeroDivisionError when the divisor math.pi * alpha is zero, and
otherwise returns (1 / gamma_1) * (m_planck / (math.pi * alpha)). -/
def derive_electron_mass (gamma_1 : ℚ) (alpha : ℚ) (m_planck : ℚ) :
    Except String ℚ :=
  if gamma_1 = 0 then
    Except.ok 0
  else if math_pi * alpha = 0 then
    Except.error "float division by zero"
  else
    Except.ok ((1 / gamma_1) * (m_planck / (math_pi * alpha)))

/-- Embedding of derive_muon_mass: multiplies by the module ratio constant.
Total, no raising arithmetic. -/
def derive_muon_mass (m_e_lgo : ℚ) : ℚ :=
  m_e_lgo * MUON_ELECTRON_STRUCTURAL_RATIO

/-- True exactly on the embeddings of raising executions. -/
def raisesZeroDivisor : Except String ℚ → Bool
  | Except.error _ => true
  | Except.ok _ => false

theorem math_pi_ne_zero : math_pi ≠ 0 := by
  unfold math_pi; norm_num

theorem G_LGO_ORIGINAL_ne_zero : G_LGO_ORIGINAL ≠ 0 := by
  unfold G_LGO_ORIGINAL; norm_num

theorem fabs_eq_abs (x : ℚ) : fabs x = |x| := by
  unfold fabs
  rcases lt_or_ge x 0 with h | h
  · rw [if_pos h, abs_of_neg h]
  · rw [if_neg (not_lt.mpr h), abs_of_nonneg h]

/-- C6: check_structural_consistency returns the boolean of the strict
comparison of the absolute difference against the tolerance, for every
value, target and tolerance; it is a total pure Boolean function of its
arguments, so it never raises. -/
theorem claim_C6_tolerance_checker (value target tolerance : ℚ) :
    check_structural_consistency value target tolerance = true ↔
      |value - target| < tolerance := by
  unfold check_structural_consistency
  rw [fabs_eq_abs]
  exact decide_eq_true_iff

/-- C8: self-deviation is zero: for every nonzero original, the flaw
calculator returns 0 without raising. -/
theorem claim_C8_self_deviation (original : ℚ) (h : original ≠ 0) :
    calculate_geometric_flaw_delta original original = Except.ok 0 := by
  unfold calculate_geometric_flaw_delta
  rw [if_neg h, sub_self, zero_div]

theorem claim_C8_self_deviation_witness :
    (3 : ℚ) ≠ 0 ∧ calculate_geometric_flaw_delta 3 3 = Except.ok 0 :=
  ⟨by norm_num, claim_C8_self_deviation 3 (by norm_num)⟩

/-- C9: tolerance-check reflexivity: for every x and every positive
tolerance t, check_structural_consistency x x t returns true. -/
theorem claim_C9_reflexivity (x t : ℚ) (h : 0 < t) :
    check_structural_consistency x x t = true := by
  unfold check_structural_consistency
  rw [fabs_eq_abs, sub_self, abs_zero]
  exact decide_eq_true h

theorem claim_C9_reflexivity_witness :
    (0 : ℚ) < 1 ∧ check_structural_consistency 5 5 1 = true :=
  ⟨by norm_num, claim_C9_reflexivity 5 1 (by norm_num)⟩

/-- C10: because the comparison is strict, every nonpositive tolerance
makes check_structural_consistency return false, even when the value
equals the target exactly. -/
theorem claim_C10_nonpositive_tolerance (value target t : ℚ) (h : t ≤ 0) :
    check_structural_consistency value target t = false := by
  unfold check_structural_consistency
  rw [fabs_eq_abs]
  exact decide_eq_false (not_lt.mpr (le_trans h (abs_nonneg _)))

theorem claim_C10_nonpositive_tolerance_witness :
    (0 : ℚ) ≤ 0 ∧ check_structural_consistency 2 2 0 = false :=
  ⟨le_refl 0, claim_C10_nonpositive_tolerance 2 2 0 (le_refl 0)⟩

/-- C2 counterexample: the claim quantifies over an original argument, but
calculate_structurally_consistent_G takes only delta; at original = 1 and
delta = 0 the claimed return value 1 * (1 - 0) differs from what the code
returns, G_LGO_ORIGINAL. -/
theorem claim_C2_counterexample :
    ¬ (calculate_structurally_consistent_G 0 = 1 * (1 - 0)) := by
  unfold calculate_structurally_consistent_G G_LGO_ORIGINAL
  norm_num

/-- C2 amended: for every delta, calculate_structurally_consistent_G
returns G_LGO_ORIGINAL * (1 - delta); the original is the fixed module
constant, not a parameter, and the function is total. -/
theorem claim_C2_correction_applier (delta : ℚ) :
    calculate_structurally_consistent_G delta = G_LGO_ORIGINAL * (1 - delta) :=
  rfl

/-- C5 counterexample: the claim quantifies over a ratio argument, but
derive_muon_mass takes only the primary mass; at primary = 1 and ratio = 2
the claimed return value 1 * 2 differs from what the code returns. -/
theorem claim_C5_counterexample : ¬ (derive_muon_mass 1 = 1 * 2) := by
  unfold derive_muon_mass MUON_ELECTRON_STRUCTURAL_RATIO
  norm_num

/-- C5 amended: for every primary, derive_muon_mass returns the product of
primary with the fixed module constant MUON_ELECTRON_STRUCTURAL_RATIO;
the ratio is not a parameter, and the function is total. -/
theorem claim_C5_secondary_mass (primary : ℚ) :
    derive_muon_mass primary = primary * MUON_ELECTRON_STRUCTURAL_RATIO :=
  rfl

/-- C3 counterexample: at original = 2 and target = 1, the flaw is 1/2 and
the correction returns G_LGO_ORIGINAL * (1 - 1/2), which is farther than
1/2 from the target 1: the round trip does not recover the target, because
the corrector multiplies the fixed constant G_LGO_ORIGINAL, not the
original that the flaw was computed from. -/
theorem claim_C3_counterexample :
    calculate_geometric_flaw_delta 2 1 = Except.ok (1 / 2) ∧
      fabs (calculate_structurally_consistent_G (1 / 2) - 1) > 1 / 2 := by
  constructor
  · unfold calculate_geometric_flaw_delta
    rw [if_neg (by norm_num : (2 : ℚ) ≠ 0)]
    norm_num
  · rw [fabs_eq_abs]
    unfold calculate_structurally_consistent_G G_LGO_ORIGINAL
    rw [abs_of_nonpos (by norm_num)]
    norm_num

/-- C3 amended: the round-trip law holds exactly when the original is the
module constant G_LGO_ORIGINAL: for every target, applying the correction
to the flaw computed from G_LGO_ORIGINAL recovers the target exactly in
the rational embedding. -/
theorem claim_C3_round_trip (target : ℚ) :
    (calculate_geometric_flaw_delta G_LGO_ORIGINAL target).map
        calculate_structurally_consistent_G = Except.ok target := by
  unfold calculate_geometric_flaw_delta
  rw [if_neg G_LGO_ORIGINAL_ne_zero]
  show Except.ok (calculate_structurally_consistent_G _) = _
  unfold calculate_structurally_consistent_G
  congr 1
  have h := G_LGO_ORIGINAL_ne_zero
  field_simp

/-- C7: in the end-to-end scenario with original 6.67435e-11 and target
6.67430e-11, the flaw is within 1e-8 of 7.49e-6, the corrected value is
within 1e-18 of the target, and the tolerance check at 1e-18 returns
true. -/
theorem claim_C7_end_to_end :
    ∃ d : ℚ,
      calculate_geometric_flaw_delta G_LGO_ORIGINAL G_CODATA = Except.ok d ∧
      fabs (d - 749 / 10 ^ 8) < 1 / 10 ^ 8 ∧
      fabs (calculate_structurally_consistent_G d - G_CODATA) < 1 / 10 ^ 18 ∧
      check_structural_consistency (calculate_structurally_consistent_G d)
        G_CODATA (1 / 10 ^ 18) = true := by
  refine ⟨1 / 133487, ?_, ?_, ?_, ?_⟩
  · unfold calculate_geometric_flaw_delta G_LGO_ORIGINAL G_CODATA
    rw [if_neg (by norm_num)]
    norm_num
  · rw [fabs_eq_abs]
    rw [abs_of_nonneg (by norm_num)]
    norm_num
  · rw [fabs_eq_abs]
    unfold calculate_structurally_consistent_G G_LGO_ORIGINAL G_CODATA
    norm_num
  · unfold check_structural_consistency
    rw [fabs_eq_abs]
    unfold calculate_structurally_consistent_G G_LGO_ORIGINAL G_CODATA
    rw [decide_eq_true_eq]
    norm_num

/-- C1 counterexample: derive_electron_mass raises the zero-divisor error
at gamma_1 = 1, alpha = 0, m_planck = 1, so the flaw calculator is not the
only operation with a raising input. -/
theorem claim_C1_counterexample :
    derive_electron_mass 1 0 1 = Except.error "float division by zero" := by
  unfold derive_electron_mass
  rw [if_neg (by norm_num : (1 : ℚ) ≠ 0), if_pos (mul_zero math_pi)]

/-- C1 amended: calculate_geometric_flaw_delta raises exactly when its
first argument is 0, and derive_electron_mass raises exactly when gamma_1
is nonzero and alpha is 0; the remaining operations
(calculate_structurally_consistent_G, check_structural_consistency,
derive_muon_mass) are total functions with no raising arithmetic. -/
theorem claim_C1_raising_inputs (o c g a s : ℚ) :
    raisesZeroDivisor (calculate_geometric_flaw_delta o c) = decide (o = 0) ∧
    raisesZeroDivisor (derive_electron_mass g a s) =
      decide (g ≠ 0 ∧ a = 0) := by
  constructor
  · unfold calculate_geometric_flaw_delta raisesZeroDivisor
    by_cases h : o = 0
    · rw [if_pos h]
      simp [h]
    · rw [if_neg h]
      simp [h]
  · unfold derive_electron_mass raisesZeroDivisor
    by_cases hg : g = 0
    · rw [if_pos hg]
      simp [hg]
    · rw [if_neg hg]
      by_cases ha : a = 0
      · rw [if_pos (by rw [ha, mul_zero])]
        simp [hg, ha]
      · rw [if_neg (mul_ne_zero math_pi_ne_zero ha)]
        simp [hg, ha]

/-- C4 counterexample: at gamma_1 = 2, alpha = 0, m_planck = 1, the code
raises the zero-divisor error instead of returning a value, although
gamma_1 is nonzero. -/
theorem claim_C4_counterexample :
    derive_electron_mass 2 0 1 = Except.error "float division by zero" := by
  unfold derive_electron_mass
  rw [if_neg (by norm_num : (2 : ℚ) ≠ 0), if_pos (mul_zero math_pi)]

/-- C4 amended: derive_electron_mass returns 0 when gamma_1 is 0 for any
alpha and m_planck, returns (1 / gamma_1) * (m_planck / (pi * alpha)) when
gamma_1 and alpha are both nonzero, and raises the zero-divisor error when
gamma_1 is nonzero and alpha is 0. -/
theorem claim_C4_primary_mass (gamma_1 alpha m_planck : ℚ) :
    derive_electron_mass gamma_1 alpha m_planck =
      if gamma_1 = 0 then Except.ok 0
      else if alpha = 0 then Except.error "float division by zero"
      else Except.ok ((1 / gamma_1) * (m_planck / (math_pi * alpha))) := by
  unfold derive_electron_mass
  by_cases hg : gamma_1 = 0
  · simp only [if_pos hg]
  · simp only [if_neg hg]
    by_cases ha : alpha = 0
    · rw [if_pos (by rw [ha, mul_zero]), if_pos ha]
    · rw [if_neg (mul_ne_zero math_pi_ne_zero ha), if_neg ha]

end LGO
